import Mathlib

/-!
Shallow embedding of the payment-confirmation core of the Runic Vault MCP
server (files `src/unicity/nostr.ts`, `src/unicity/payment-tracker.ts`,
`src/store/cart.ts`, `src/tools/index.ts`).

JavaScript `Map`s are modelled as insertion-ordered association lists with
string keys; `Date` values as natural-number timestamps; `bigint` amounts as
`Int`; promise resolution/rejection as explicit `Outcome` deliveries tagged
with the request event id owning the promise.  Exceptions thrown inside the
correlator's try block (identity service missing, decrypt/parse failures,
empty token data) are modelled by an optional error message on the event.
-/

namespace RunicVault

/-- Association list standing in for a JavaScript `Map` with string keys
(insertion-ordered, unique keys by construction). -/
abbrev AList (V : Type) := List (String × V)

/-- `Map.get`: first entry with the given key. -/
def mapGet {V : Type} (m : AList V) (k : String) : Option V :=
  match m with
  | [] => none
  | (k1, v) :: rest => if k1 = k then some v else mapGet rest k

/-- `Map.set`: replace in place when the key exists, else append. -/
def mapSet {V : Type} (m : AList V) (k : String) (v : V) : AList V :=
  match m with
  | [] => [(k, v)]
  | (k1, v1) :: rest =>
      if k1 = k then (k1, v) :: rest else (k1, v1) :: mapSet rest k v

/-- `Map.delete`: remove the entry with the given key. -/
def mapDelete {V : Type} (m : AList V) (k : String) : AList V :=
  m.filter (fun kv => kv.1 ≠ k)

theorem mapGet_mapDelete_self {V : Type} (m : AList V) (k : String) :
    mapGet (mapDelete m k) k = none := by
  induction m with
  | nil => rfl
  | cons kv rest ih =>
      by_cases h : kv.1 = k
      · simpa [mapDelete, List.filter, h] using ih
      · simpa [mapDelete, List.filter, h, mapGet] using ih

theorem mapGet_mem {V : Type} {m : AList V} {k : String} {v : V}
    (h : mapGet m k = some v) : (k, v) ∈ m := by
  induction m with
  | nil => simp [mapGet] at h
  | cons kv rest ih =>
      by_cases hk : kv.1 = k
      · rw [mapGet, if_pos hk] at h
        cases kv
        simp_all
      · rw [mapGet, if_neg hk] at h
        exact List.mem_cons_of_mem _ (ih h)

theorem mem_mapDelete {V : Type} {m : AList V} {k e : String} {v : V}
    (h : (k, v) ∈ mapDelete m e) : k ≠ e ∧ (k, v) ∈ m := by
  have h2 := List.mem_filter.mp h
  exact ⟨by simpa using h2.2, h2.1⟩

theorem mapGet_mapSet_self {V : Type} (m : AList V) (k : String) (v : V) :
    mapGet (mapSet m k v) k = some v := by
  induction m with
  | nil => simp [mapSet, mapGet]
  | cons kv rest ih =>
      by_cases h : kv.1 = k
      · simp [mapSet, h, mapGet]
      · simp [mapSet, h, mapGet, ih]

/-- `src/unicity/types.ts` `ConfirmedPayment`. -/
structure ConfirmedPayment where
  cartId : String
  requestEventId : String
  transferEventId : String
  confirmedAt : Nat
deriving DecidableEq, Repr

/-- `src/unicity/nostr.ts` `PendingPaymentInternal` (minus the promise
callbacks, which are modelled by outcome deliveries keyed by `eventId`). -/
structure PendingPaymentE where
  cartId : String
  eventId : String
  unicityId : String
  customerPubkey : String
  amountTokens : Int
  createdAt : Nat
deriving DecidableEq, Repr

/-- A promise settling: `resolve` with a confirmed payment or `reject` with
an error message. -/
inductive Outcome where
  | success (payment : ConfirmedPayment)
  | failure (message : String)
deriving DecidableEq, Repr

/-- Mutable state of `NostrService`: the two maps plus nullable
collaborators (`client`, `config`, `identityService`) and the subscription. -/
structure NostrState where
  clientActive : Bool
  hasConfig : Bool
  hasIdentity : Bool
  isInitialized : Bool
  transferSubscriptionId : Option String
  pendingPayments : AList PendingPaymentE
  confirmedPayments : AList ConfirmedPayment
deriving DecidableEq, Repr

/-- What `TokenTransferProtocol` extracts from an inbound Nostr event, plus
whether the decrypt/parse steps of `handleIncomingTransfer` would throw
(`parseError = some msg` models a thrown error with that message). -/
structure TransferEvent where
  id : String
  isTokenTransfer : Bool
  replyToEventId : Option String
  senderPubkey : String
  parseError : Option String
  amount : Option Int
deriving DecidableEq, Repr

/-- The fallback scan of `handleIncomingTransfer`: first pending payment (in
insertion order) whose `customerPubkey` equals the sender. -/
def findBySender (m : AList PendingPaymentE) (sender : String) :
    Option PendingPaymentE :=
  match m with
  | [] => none
  | (_, p) :: rest =>
      if p.customerPubkey = sender then some p else findBySender rest sender

/-- Matching order of `handleIncomingTransfer`: reply-to event id first,
then sender pubkey. -/
def matchPendingPayment (s : NostrState) (ev : TransferEvent) :
    Option PendingPaymentE :=
  let byReply :=
    match ev.replyToEventId with
    | some rid => mapGet s.pendingPayments rid
    | none => none
  match byReply with
  | some p => some p
  | none => findBySender s.pendingPayments ev.senderPubkey

/-- Error text of the amount-mismatch rejection. -/
def mismatchMessage (received expected : Int) : String :=
  "Payment amount mismatch: received " ++ toString received ++
    " tokens but expected " ++ toString expected ++ " tokens"

/-- The first exception raised inside the try block of
`handleIncomingTransfer`, if any: a missing identity service throws before
the decrypt/parse steps do. -/
def thrownError (s : NostrState) (ev : TransferEvent) : Option String :=
  if !s.hasIdentity then some "IdentityService not initialized"
  else ev.parseError

/-- Remove one pending payment from the index. -/
def removePending (s : NostrState) (eventId : String) : NostrState :=
  { s with pendingPayments := mapDelete s.pendingPayments eventId }

/-- Success path of `handleIncomingTransfer`: record the confirmed payment,
remove the expectation from the pending index, resolve the promise. -/
def confirmMatched (s : NostrState) (ev : TransferEvent) (now : Nat)
    (p : PendingPaymentE) : NostrState × List (String × Outcome) :=
  let confirmed : ConfirmedPayment :=
    { cartId := p.cartId, requestEventId := p.eventId,
      transferEventId := ev.id, confirmedAt := now }
  ({ s with
      confirmedPayments := mapSet s.confirmedPayments p.cartId confirmed,
      pendingPayments := mapDelete s.pendingPayments p.eventId },
   [(p.eventId, Outcome.success confirmed)])

/-- Body of `handleIncomingTransfer` once an expectation has been matched:
the try block (exceptions reject only when a reply-to reference is present),
the strict amount check, and the confirm path.  A finalization failure of
`processTokenTransfer` is logged and deliberately ignored by the source, so
it does not appear here. -/
def handleMatched (s : NostrState) (ev : TransferEvent) (now : Nat)
    (p : PendingPaymentE) : NostrState × List (String × Outcome) :=
  match thrownError s ev with
  | some msg =>
      match ev.replyToEventId with
      | some _ =>
          (removePending s p.eventId,
           [(p.eventId, Outcome.failure ("Payment failed: " ++ msg))])
      | none => (s, [])
  | none =>
      match ev.amount with
      | some a =>
          if a = p.amountTokens then confirmMatched s ev now p
          else
            (removePending s p.eventId,
             [(p.eventId, Outcome.failure (mismatchMessage a p.amountTokens))])
      | none => confirmMatched s ev now p

/-- `NostrService.handleIncomingTransfer`. -/
def handleIncomingTransfer (s : NostrState) (ev : TransferEvent) (now : Nat) :
    NostrState × List (String × Outcome) :=
  if ev.isTokenTransfer then
    match matchPendingPayment s ev with
    | some p => handleMatched s ev now p
    | none => (s, [])
  else (s, [])

/-- Error text of the timeout rejection (the source renders
`timeout / 1000` as a JavaScript number; integral division stands in). -/
def timeoutMessage (timeoutMs : Nat) (eventId : String) : String :=
  "Payment timeout after " ++ toString (timeoutMs / 1000) ++
    " seconds. Payment request eventId: " ++ eventId

/-- The `setTimeout` callback registered by `waitForPayment`: reject only if
the expectation is still in the pending index, deleting it first. -/
def timeoutFire (s : NostrState) (eventId : String) (timeoutMs : Nat) :
    NostrState × List (String × Outcome) :=
  if (mapGet s.pendingPayments eventId).isSome then
    (removePending s eventId,
     [(eventId, Outcome.failure (timeoutMessage timeoutMs eventId))])
  else (s, [])

/-- Deliveries addressed to the promise registered under `e`. -/
def deliveriesFor (ds : List (String × Outcome)) (e : String) : List Outcome :=
  match ds with
  | [] => []
  | (k, o) :: rest =>
      if k = e then o :: deliveriesFor rest e else deliveriesFor rest e

theorem deliveriesFor_append (ds1 ds2 : List (String × Outcome)) (e : String) :
    deliveriesFor (ds1 ++ ds2) e = deliveriesFor ds1 e ++ deliveriesFor ds2 e := by
  induction ds1 with
  | nil => rfl
  | cons d rest ih =>
      obtain ⟨k, o⟩ := d
      by_cases h : k = e <;> simp [deliveriesFor, h, ih]

/-- Well-formedness maintained by `waitForPayment`: each pending payment is
stored under its own request event id. -/
def WfPending (m : AList PendingPaymentE) : Prop :=
  ∀ kp ∈ m, kp.2.eventId = kp.1

theorem wfPending_mapDelete {m : AList PendingPaymentE} {e : String}
    (h : WfPending m) : WfPending (mapDelete m e) :=
  fun kp hkp => h kp (List.mem_filter.mp hkp).1

theorem findBySender_mem {m : AList PendingPaymentE} {sender : String}
    {p : PendingPaymentE} (h : findBySender m sender = some p) :
    ∃ k, (k, p) ∈ m := by
  induction m with
  | nil => simp [findBySender] at h
  | cons kv rest ih =>
      rw [findBySender] at h
      by_cases hs : kv.2.customerPubkey = sender
      · rw [if_pos hs] at h
        exact ⟨kv.1, by cases kv; simp_all⟩
      · rw [if_neg hs] at h
        obtain ⟨k, hk⟩ := ih h
        exact ⟨k, List.mem_cons_of_mem _ hk⟩

theorem matchPendingPayment_mem {s : NostrState} {ev : TransferEvent}
    {p : PendingPaymentE} (h : matchPendingPayment s ev = some p) :
    ∃ k, (k, p) ∈ s.pendingPayments := by
  unfold matchPendingPayment at h
  cases hr : ev.replyToEventId with
  | none =>
      rw [hr] at h
      simp only at h
      exact findBySender_mem h
  | some rid =>
      rw [hr] at h
      simp only at h
      cases hg : mapGet s.pendingPayments rid with
      | none =>
          rw [hg] at h
          simp only at h
          exact findBySender_mem h
      | some q =>
          rw [hg] at h
          simp only [Option.some.injEq] at h
          exact ⟨rid, by rw [← h]; exact mapGet_mem hg⟩

/-- `unicityId.startsWith("@") ? unicityId.slice(1) : unicityId`. -/
def normalizeUnicityId (unicityId : String) : String :=
  if unicityId.startsWith "@" then unicityId.drop 1 else unicityId

/-- Synchronous part of `NostrService.waitForPayment`: either the
already-confirmed fast path (no expectation registered, no timeout armed)
or registration of a fresh expectation with an armed timeout. -/
inductive WaitStart where
  | alreadyConfirmed (payment : ConfirmedPayment)
  | registered (eventId : String) (timeoutMs : Nat)
deriving DecidableEq, Repr

/-- `NostrService.waitForPayment` up to the point where the caller starts
awaiting: throws when no config, answers from `confirmedPayments` first,
otherwise stores the expectation under its request event id and arms the
timeout. -/
def waitForPayment (s : NostrState) (defaultTimeoutMs : Nat)
    (cartId eventId unicityId customerPubkey : String) (amountTokens : Int)
    (timeoutMs : Option Nat) (now : Nat) :
    Except String (WaitStart × NostrState) :=
  if !s.hasConfig then Except.error "NostrService not initialized"
  else
    let timeout := timeoutMs.getD defaultTimeoutMs
    match mapGet s.confirmedPayments cartId with
    | some existing => Except.ok (WaitStart.alreadyConfirmed existing, s)
    | none =>
        let p : PendingPaymentE :=
          { cartId := cartId, eventId := eventId,
            unicityId := normalizeUnicityId unicityId,
            customerPubkey := customerPubkey, amountTokens := amountTokens,
            createdAt := now }
        Except.ok (WaitStart.registered eventId timeout,
          { s with pendingPayments := mapSet s.pendingPayments eventId p })

/-- `NostrService.getConfirmedPayment`. -/
def getConfirmedPayment (s : NostrState) (cartId : String) :
    Option ConfirmedPayment :=
  mapGet s.confirmedPayments cartId

/-- Observable effects of `NostrService.shutdown`: which subscription was
released, which pending promises were rejected, whether the relay client
was disconnected. -/
structure ShutdownEffects where
  unsubscribedId : Option String
  rejections : List (String × Outcome)
  disconnected : Bool
deriving DecidableEq, Repr

/-- `NostrService.shutdown`: when a client exists, unsubscribe, reject every
pending payment, clear the index, disconnect; always null out the
collaborators and the initialized flag. -/
def shutdown (s : NostrState) : NostrState × ShutdownEffects :=
  if s.clientActive then
    ({ s with
        clientActive := false, transferSubscriptionId := none,
        pendingPayments := [], hasIdentity := false, hasConfig := false,
        isInitialized := false },
     { unsubscribedId := s.transferSubscriptionId,
       rejections := s.pendingPayments.map
         (fun kp => (kp.2.eventId, Outcome.failure "NostrService shutting down")),
       disconnected := true })
  else
    ({ s with
        hasIdentity := false, hasConfig := false,
        isInitialized := false },
     { unsubscribedId := none, rejections := [], disconnected := false })

/-- Backoff delay before the retry following `attempt`:
`1000 * Math.pow(2, attempt - 1)`. -/
def retryDelayMs (attempt : Nat) : Nat := 1000 * 2 ^ (attempt - 1)

/-- The `for (let attempt = 1; attempt <= maxRetries; attempt++)` loop of
`resolvePubkeyWithRetry`.  `query attempt` is the result the relay returns
for that attempt.  Returns the resolved pubkey (or none), the number of
lookup attempts performed, and the list of sleep durations taken.  The
extra fuel argument (structurally decreasing, `maxRetries` at the top call)
only bounds the recursion and never cuts the loop short. -/
def resolveLoop (query : Nat → Option String) (maxRetries : Nat) :
    Nat → Nat → Option String × Nat × List Nat
  | _, 0 => (none, 0, [])
  | attempt, fuel + 1 =>
      if attempt > maxRetries then (none, 0, [])
      else
        match query attempt with
        | some pk => (some pk, 1, [])
        | none =>
            let ds := if attempt < maxRetries then [retryDelayMs attempt] else []
            let rest := resolveLoop query maxRetries (attempt + 1) fuel
            (rest.1, rest.2.1 + 1, ds ++ rest.2.2)

/-- `NostrService.resolvePubkeyWithRetry` (default `maxRetries = 3` at every
call site): throws when no client, else runs the retry loop from attempt 1.
The probable-timeout log line (elapsed ≥ 14.9s) has no observable effect
and is not modelled. -/
def resolvePubkeyWithRetry (clientActive : Bool) (query : Nat → Option String)
    (maxRetries : Nat) : Except String (Option String × Nat × List Nat) :=
  if !clientActive then Except.error "NostrService not initialized"
  else Except.ok (resolveLoop query maxRetries 1 maxRetries)

/-- `src/types.ts` `OrderStatus`. -/
inductive OrderStatus where
  | pending
  | awaiting_payment
  | paid
  | cancelled
  | payment_timeout
deriving DecidableEq, Repr

/-- `src/types.ts` `Order`. -/
structure Order where
  id : String
  cartId : String
  status : OrderStatus
  totalAmountCents : Int
  currency : String
  paymentEventId : Option String
  unicityId : Option String
  createdAt : Nat
  updatedAt : Nat
  paidAt : Option Nat
deriving DecidableEq, Repr

/-- `payment-tracker.ts` `trackOrder` (the fresh UUID is passed in). -/
def trackOrder (orders : AList Order) (newId cartId : String)
    (totalAmountCents : Int) (currency : String) (now : Nat) :
    AList Order × Order :=
  let o : Order :=
    { id := newId, cartId := cartId, status := OrderStatus.pending,
      totalAmountCents := totalAmountCents, currency := currency,
      paymentEventId := none, unicityId := none,
      createdAt := now, updatedAt := now, paidAt := none }
  (mapSet orders cartId o, o)

/-- `payment-tracker.ts` `getOrderByCartId`. -/
def getOrderByCartId (orders : AList Order) (cartId : String) : Option Order :=
  mapGet orders cartId

/-- `payment-tracker.ts` `updateOrderStatus`: sets the requested status
unconditionally, refreshes `updatedAt`, stamps `paidAt` when the new status
is `paid`; returns `none` when the order does not exist. -/
def updateOrderStatus (orders : AList Order) (cartId : String)
    (status : OrderStatus) (now : Nat) : AList Order × Option Order :=
  match mapGet orders cartId with
  | none => (orders, none)
  | some o =>
      let o2 : Order :=
        { o with
            status := status, updatedAt := now,
            paidAt := if status = OrderStatus.paid then some now else o.paidAt }
      (mapSet orders cartId o2, some o2)

/-- `payment-tracker.ts` `markAwaitingPayment`. -/
def markAwaitingPayment (orders : AList Order) (cartId eventId unicityId : String)
    (now : Nat) : AList Order × Option Order :=
  match mapGet orders cartId with
  | none => (orders, none)
  | some o =>
      let o2 : Order :=
        { o with
            status := OrderStatus.awaiting_payment,
            paymentEventId := some eventId, unicityId := some unicityId,
            updatedAt := now }
      (mapSet orders cartId o2, some o2)

/-- `payment-tracker.ts` `markPaid`. -/
def markPaid (orders : AList Order) (cartId : String) (now : Nat) :
    AList Order × Option Order :=
  updateOrderStatus orders cartId OrderStatus.paid now

/-- `payment-tracker.ts` `markCancelled`. -/
def markCancelled (orders : AList Order) (cartId : String) (now : Nat) :
    AList Order × Option Order :=
  updateOrderStatus orders cartId OrderStatus.cancelled now

/-- `payment-tracker.ts` `markPaymentTimeout`. -/
def markPaymentTimeout (orders : AList Order) (cartId : String) (now : Nat) :
    AList Order × Option Order :=
  updateOrderStatus orders cartId OrderStatus.payment_timeout now

/-- The fields of `src/types.ts` `CartLine` that checkout reads. -/
structure CartLine where
  variantId : String
  productTitle : String
  variantTitle : String
  quantity : Int
deriving DecidableEq, Repr

/-- The fields of `src/types.ts` `Cart` that checkout reads and writes. -/
structure Cart where
  lines : List CartLine
  subtotalCents : Int
  currency : String
  lockedForCheckout : Bool
  updatedAt : Nat
deriving DecidableEq, Repr

/-- `src/store/cart.ts` `lockCartForCheckout`. -/
def lockCartForCheckout (carts : AList Cart) (cartId : String) (now : Nat) :
    AList Cart :=
  match mapGet carts cartId with
  | none => carts
  | some c =>
      mapSet carts cartId { c with lockedForCheckout := true, updatedAt := now }

/-- `src/store/cart.ts` `unlockCart`. -/
def unlockCart (carts : AList Cart) (cartId : String) (now : Nat) :
    AList Cart :=
  match mapGet carts cartId with
  | none => carts
  | some c =>
      mapSet carts cartId { c with lockedForCheckout := false, updatedAt := now }

/-- The fields of a Shopify variant that the checkout inventory
re-validation reads. -/
structure Variant where
  availableForSale : Bool
  quantityAvailable : Option Int
deriving DecidableEq, Repr

/-- `src/unicity/nostr.ts` `PaymentRequestResult`. -/
structure PaymentRequestResult where
  eventId : String
  amountTokens : Int
  recipientNametag : String
  coinId : String
  customerPubkey : String
deriving DecidableEq, Repr

/-- `src/types.ts` `OUT_OF_STOCK_MESSAGE`. -/
def OUT_OF_STOCK_MESSAGE : String :=
  "This item is currently out of stock. Please reach out to @grittenald in chat for availability updates or to place a backorder."

/-- External collaborators of one `checkout_with_unicity` invocation:
the storefront variant lookup, the outcome of `sendPaymentRequest`
(an error models resolution or issuance failure), connectivity, the UUID
minted for a new order, and the clock. -/
structure CheckoutEnv where
  getVariantById : String → Option Variant
  sendPaymentRequest : Except String PaymentRequestResult
  nostrConnected : Bool
  newOrderId : String
  now : Nat

/-- State touched by `checkout_with_unicity`: the checkout-lock set, the
cart store, the order store. -/
structure CheckoutState where
  checkoutLocks : List String
  carts : AList Cart
  orders : AList Order
deriving DecidableEq, Repr

/-- Which branch of `checkout_with_unicity` produced the response. -/
inductive CheckoutResult where
  | inProgressError
  | cartNotFound
  | emptyCart
  | inventoryError (errors : List String)
  | alreadyPaid (orderId : String)
  | alreadyAwaiting (paymentEventId : Option String)
  | notConnected
  | sendFailed (message : String)
  | success (request : PaymentRequestResult)
deriving DecidableEq, Repr

/-- One iteration of the inventory re-validation loop: the error message
pushed for this cart line, if any. -/
def lineInventoryError (env : CheckoutEnv) (line : CartLine) : Option String :=
  match env.getVariantById line.variantId with
  | none =>
      some (line.productTitle ++ " (" ++ line.variantTitle ++
        "): Product variant no longer exists")
  | some v =>
      if !v.availableForSale then
        some (line.productTitle ++ " (" ++ line.variantTitle ++ "): " ++
          OUT_OF_STOCK_MESSAGE)
      else
        match v.quantityAvailable with
        | some q =>
            if line.quantity > q then
              some (line.productTitle ++ " (" ++ line.variantTitle ++
                "): Only " ++ toString q ++ " available, but " ++
                toString line.quantity ++ " in cart")
            else none
        | none => none

/-- Tail of `checkout_with_unicity` once all validation passed: issue the
payment request first, and only on success create the order, mark it
awaiting payment, and lock the cart. -/
def checkoutIssue (env : CheckoutEnv) (s : CheckoutState)
    (cartId unicityId : String) (cart : Cart) :
    CheckoutResult × CheckoutState :=
  if !env.nostrConnected then (CheckoutResult.notConnected, s)
  else
    match env.sendPaymentRequest with
    | Except.error msg => (CheckoutResult.sendFailed msg, s)
    | Except.ok req =>
        let orders1 :=
          (trackOrder s.orders env.newOrderId cartId cart.subtotalCents
            cart.currency env.now).1
        let orders2 :=
          (markAwaitingPayment orders1 cartId req.eventId unicityId env.now).1
        let carts2 := lockCartForCheckout s.carts cartId env.now
        (CheckoutResult.success req,
         { s with orders := orders2, carts := carts2 })

/-- Body of `checkout_with_unicity` (inside the try, after the lock is
held): cart lookup, empty-cart guard, inventory re-validation, existing
order guards, connectivity guard, then `checkoutIssue`. -/
def checkoutBody (env : CheckoutEnv) (s : CheckoutState)
    (cartId unicityId : String) : CheckoutResult × CheckoutState :=
  match mapGet s.carts cartId with
  | none => (CheckoutResult.cartNotFound, s)
  | some cart =>
      if cart.lines.isEmpty then (CheckoutResult.emptyCart, s)
      else
        let invErrors := cart.lines.filterMap (lineInventoryError env)
        if !invErrors.isEmpty then (CheckoutResult.inventoryError invErrors, s)
        else
          match mapGet s.orders cartId with
          | some o =>
              if o.status = OrderStatus.paid then
                (CheckoutResult.alreadyPaid o.id, s)
              else if o.status = OrderStatus.awaiting_payment then
                (CheckoutResult.alreadyAwaiting o.paymentEventId, s)
              else checkoutIssue env s cartId unicityId cart
          | none => checkoutIssue env s cartId unicityId cart

/-- `checkout_with_unicity`: fail fast when the cart id is already in the
checkout-lock set, otherwise add it, run the body, and release the lock in
the finally block. -/
def checkout (env : CheckoutEnv) (s : CheckoutState)
    (cartId unicityId : String) : CheckoutResult × CheckoutState :=
  if cartId ∈ s.checkoutLocks then (CheckoutResult.inProgressError, s)
  else
    let s1 : CheckoutState :=
      { s with checkoutLocks := cartId :: s.checkoutLocks }
    let r := checkoutBody env s1 cartId unicityId
    (r.1, { r.2 with checkoutLocks := r.2.checkoutLocks.erase cartId })

/-- `confirm_payment`'s clamp of the caller-supplied wait window:
`Math.min(Math.max(waitSeconds ?? 0, 0), 120)`. -/
def effectiveWaitSeconds (waitSeconds : Option Int) : Int :=
  min (max (waitSeconds.getD 0) 0) 120

theorem mapSet_mapSet {V : Type} (m : AList V) (k : String) (v w : V) :
    mapSet (mapSet m k v) k w = mapSet m k w := by
  induction m with
  | nil => simp [mapSet]
  | cons kv rest ih =>
      by_cases h : kv.1 = k <;> simp [mapSet, h, ih]

/-- Exhaustive shape of `handleMatched`: either it does nothing (an
exception was thrown and no reply-to reference identifies the payment), or
it delivers exactly one outcome to the matched expectation's promise and
removes that expectation from the pending index. -/
theorem handleMatched_cases (s : NostrState) (ev : TransferEvent) (now : Nat)
    (p : PendingPaymentE) :
    handleMatched s ev now p = (s, []) ∨
    ∃ o, (handleMatched s ev now p).2 = [(p.eventId, o)] ∧
      ((handleMatched s ev now p).1).pendingPayments =
        mapDelete s.pendingPayments p.eventId := by
  cases hth : thrownError s ev with
  | some msg =>
      cases hr : ev.replyToEventId with
      | some rid =>
          right
          exact ⟨Outcome.failure ("Payment failed: " ++ msg),
            by simp [handleMatched, hth, hr],
            by simp [handleMatched, hth, hr, removePending]⟩
      | none =>
          left
          simp [handleMatched, hth, hr]
  | none =>
      cases ha : ev.amount with
      | some a =>
          by_cases he : a = p.amountTokens
          · right
            exact ⟨Outcome.success
                { cartId := p.cartId, requestEventId := p.eventId,
                  transferEventId := ev.id, confirmedAt := now },
              by simp [handleMatched, hth, ha, he, confirmMatched],
              by simp [handleMatched, hth, ha, he, confirmMatched]⟩
          · right
            exact ⟨Outcome.failure (mismatchMessage a p.amountTokens),
              by simp [handleMatched, hth, ha, he],
              by simp [handleMatched, hth, ha, he, removePending]⟩
      | none =>
          right
          exact ⟨Outcome.success
              { cartId := p.cartId, requestEventId := p.eventId,
                transferEventId := ev.id, confirmedAt := now },
            by simp [handleMatched, hth, ha, confirmMatched],
            by simp [handleMatched, hth, ha, confirmMatched]⟩

/-- C2: when an inbound settlement event is matched to a pending
expectation (by reply-to reference or sender address) and carries a
transferred amount strictly unequal to the expected amount, the correlator
removes that expectation from the pending index and rejects its wait with
the mismatch failure, and the confirmed-results map is left untouched (no
confirmed result is recorded for that cart from that event). -/
theorem C2_mismatch_rejects (s : NostrState) (ev : TransferEvent)
    (p : PendingPaymentE) (now : Nat) (a : Int)
    (hkind : ev.isTokenTransfer = true)
    (hmatch : matchPendingPayment s ev = some p)
    (hid : s.hasIdentity = true)
    (hparse : ev.parseError = none)
    (hamt : ev.amount = some a)
    (hne : a ≠ p.amountTokens) :
    handleIncomingTransfer s ev now =
      (removePending s p.eventId,
       [(p.eventId, Outcome.failure (mismatchMessage a p.amountTokens))]) ∧
    (removePending s p.eventId).confirmedPayments = s.confirmedPayments ∧
    mapGet (removePending s p.eventId).pendingPayments p.eventId = none := by
  refine ⟨?_, rfl, mapGet_mapDelete_self _ _⟩
  simp [handleIncomingTransfer, hkind, hmatch, handleMatched, thrownError,
    hid, hparse, hamt, hne]

/-- C2 witness: a pending expectation of 4999 tokens matched by reply-to
reference, with 4998 delivered, is removed and rejected; nothing is
recorded in the confirmed-results map. -/
theorem C2_mismatch_rejects_witness :
    handleIncomingTransfer
        { clientActive := true, hasConfig := true, hasIdentity := true,
          isInitialized := true, transferSubscriptionId := some "sub-1",
          pendingPayments := [("evt-1",
            { cartId := "cart-1", eventId := "evt-1", unicityId := "alice",
              customerPubkey := "pk-alice", amountTokens := 4999,
              createdAt := 0 })],
          confirmedPayments := [] }
        { id := "tr-1", isTokenTransfer := true,
          replyToEventId := some "evt-1", senderPubkey := "pk-alice",
          parseError := none, amount := some 4998 } 9 =
      (removePending
        { clientActive := true, hasConfig := true, hasIdentity := true,
          isInitialized := true, transferSubscriptionId := some "sub-1",
          pendingPayments := [("evt-1",
            { cartId := "cart-1", eventId := "evt-1", unicityId := "alice",
              customerPubkey := "pk-alice", amountTokens := 4999,
              createdAt := 0 })],
          confirmedPayments := [] } "evt-1",
       [("evt-1", Outcome.failure (mismatchMessage 4998 4999))]) :=
  (C2_mismatch_rejects _ _
    { cartId := "cart-1", eventId := "evt-1", unicityId := "alice",
      customerPubkey := "pk-alice", amountTokens := 4999, createdAt := 0 }
    9 4998 rfl (by decide) rfl rfl rfl (by decide)).1

/-- C3: with a matched expectation and a cleanly parsed transfer, an event
carrying no amount skips amount validation and confirms the payment; an
event carrying the expected amount also confirms; and the mismatch failure
is delivered exactly when an amount is present and differs from the
expectation's `amountTokens`. -/
theorem C3_amount_validation_shape (s : NostrState) (ev : TransferEvent)
    (p : PendingPaymentE) (now : Nat)
    (hkind : ev.isTokenTransfer = true)
    (hmatch : matchPendingPayment s ev = some p)
    (hid : s.hasIdentity = true)
    (hparse : ev.parseError = none) :
    (ev.amount = none →
      (handleIncomingTransfer s ev now).2 =
        [(p.eventId, Outcome.success
          { cartId := p.cartId, requestEventId := p.eventId,
            transferEventId := ev.id, confirmedAt := now })]) ∧
    (∀ a, ev.amount = some a → a = p.amountTokens →
      (handleIncomingTransfer s ev now).2 =
        [(p.eventId, Outcome.success
          { cartId := p.cartId, requestEventId := p.eventId,
            transferEventId := ev.id, confirmedAt := now })]) ∧
    (∀ a, ev.amount = some a → a ≠ p.amountTokens →
      (handleIncomingTransfer s ev now).2 =
        [(p.eventId, Outcome.failure (mismatchMessage a p.amountTokens))]) := by
  refine ⟨?_, ?_, ?_⟩
  · intro ha
    simp [handleIncomingTransfer, hkind, hmatch, handleMatched, thrownError,
      hid, hparse, ha, confirmMatched]
  · intro a ha he
    simp [handleIncomingTransfer, hkind, hmatch, handleMatched, thrownError,
      hid, hparse, ha, he, confirmMatched]
  · intro a ha hne
    simp [handleIncomingTransfer, hkind, hmatch, handleMatched, thrownError,
      hid, hparse, ha, hne]

/-- C3 witness: an amount-less transfer matched by sender address confirms
the payment at the expected amount. -/
theorem C3_amount_validation_shape_witness :
    (handleIncomingTransfer
        { clientActive := true, hasConfig := true, hasIdentity := true,
          isInitialized := true, transferSubscriptionId := some "sub-1",
          pendingPayments := [("evt-2",
            { cartId := "cart-2", eventId := "evt-2", unicityId := "bob",
              customerPubkey := "pk-bob", amountTokens := 777,
              createdAt := 0 })],
          confirmedPayments := [] }
        { id := "tr-2", isTokenTransfer := true, replyToEventId := none,
          senderPubkey := "pk-bob", parseError := none, amount := none }
        11).2 =
      [("evt-2", Outcome.success
        { cartId := "cart-2", requestEventId := "evt-2",
          transferEventId := "tr-2", confirmedAt := 11 })] :=
  (C3_amount_validation_shape _ _
    { cartId := "cart-2", eventId := "evt-2", unicityId := "bob",
      customerPubkey := "pk-bob", amountTokens := 777, createdAt := 0 }
    11 rfl (by decide) rfl rfl).1 rfl

/-- C1: for an expectation pending under request event id `e` and a
settlement event matched to it, either interleaving of the correlator and
the firing timeout delivers exactly one terminal outcome to that
expectation's promise: whichever runs first removes the expectation from
the pending index, and the loser — guarded by the pending-index check for
the timeout, by the registry lookup for the correlator — delivers nothing
to it. -/
theorem C1_exactly_one_outcome (s : NostrState) (ev : TransferEvent)
    (p : PendingPaymentE) (e : String) (now tmo : Nat)
    (hwf : WfPending s.pendingPayments)
    (hget : mapGet s.pendingPayments e = some p)
    (hkind : ev.isTokenTransfer = true)
    (hmatch : matchPendingPayment s ev = some p) :
    (deliveriesFor ((handleIncomingTransfer s ev now).2 ++
        (timeoutFire (handleIncomingTransfer s ev now).1 e tmo).2) e).length
      = 1 ∧
    (deliveriesFor ((timeoutFire s e tmo).2 ++
        (handleIncomingTransfer (timeoutFire s e tmo).1 ev now).2) e).length
      = 1 := by
  have hpe : p.eventId = e := hwf (e, p) (mapGet_mem hget)
  have hA : handleIncomingTransfer s ev now = handleMatched s ev now p := by
    simp [handleIncomingTransfer, hkind, hmatch]
  constructor
  · -- correlator first, timeout second
    rw [hA]
    rcases handleMatched_cases s ev now p with hcase | ⟨o, hd, hp⟩
    · rw [hcase]
      simp [timeoutFire, hget, deliveriesFor]
    · rw [hpe] at hp
      have hnone : mapGet ((handleMatched s ev now p).1).pendingPayments e
          = none := by
        rw [hp]
        exact mapGet_mapDelete_self _ _
      rw [deliveriesFor_append, hd, hpe]
      simp [timeoutFire, hnone, deliveriesFor]
  · -- timeout first, correlator second
    have hT : timeoutFire s e tmo =
        (removePending s e,
         [(e, Outcome.failure (timeoutMessage tmo e))]) := by
      simp [timeoutFire, hget]
    rw [hT]
    rw [deliveriesFor_append]
    have hwf1 : WfPending (mapDelete s.pendingPayments e) :=
      wfPending_mapDelete hwf
    cases hm2 : matchPendingPayment (removePending s e) ev with
    | none =>
        simp [handleIncomingTransfer, hkind, hm2, deliveriesFor]
    | some q =>
        obtain ⟨k, hk⟩ := matchPendingPayment_mem hm2
        have hk2 : (k, q) ∈ mapDelete s.pendingPayments e := hk
        have hkne : k ≠ e := (mem_mapDelete hk2).1
        have hq : q.eventId = k := hwf1 (k, q) hk2
        have hqe : q.eventId ≠ e := by rw [hq]; exact hkne
        have hH : handleIncomingTransfer (removePending s e) ev now =
            handleMatched (removePending s e) ev now q := by
          simp [handleIncomingTransfer, hkind, hm2]
        rw [hH]
        rcases handleMatched_cases (removePending s e) ev now q with
          hcase | ⟨o, hd, hp⟩
        · rw [hcase]
          simp [deliveriesFor]
        · rw [hd]
          simp [deliveriesFor, hqe]

/-- A concrete pending expectation for the race witness. -/
def racePending : PendingPaymentE :=
  { cartId := "cart-9", eventId := "evt-9", unicityId := "carol",
    customerPubkey := "pk-carol", amountTokens := 100, createdAt := 0 }

/-- A concrete service state holding just `racePending`. -/
def raceState : NostrState :=
  { clientActive := true, hasConfig := true, hasIdentity := true,
    isInitialized := true, transferSubscriptionId := some "sub-1",
    pendingPayments := [("evt-9", racePending)], confirmedPayments := [] }

/-- A concrete settlement event matching `racePending` by reply-to. -/
def raceEvent : TransferEvent :=
  { id := "tr-9", isTokenTransfer := true, replyToEventId := some "evt-9",
    senderPubkey := "pk-carol", parseError := none, amount := some 100 }

/-- C1 witness: a single pending expectation, a matching event, a 5000 ms
timeout; both interleavings deliver exactly one outcome. -/
theorem C1_exactly_one_outcome_witness :
    (deliveriesFor ((handleIncomingTransfer raceState raceEvent 4).2 ++
        (timeoutFire (handleIncomingTransfer raceState raceEvent 4).1
          "evt-9" 5000).2) "evt-9").length = 1 ∧
    (deliveriesFor ((timeoutFire raceState "evt-9" 5000).2 ++
        (handleIncomingTransfer (timeoutFire raceState "evt-9" 5000).1
          raceEvent 4).2) "evt-9").length = 1 :=
  C1_exactly_one_outcome raceState raceEvent racePending "evt-9" 4 5000
    (by simp [WfPending, raceState, racePending]) (by decide) rfl (by decide)

/-- C7: alias resolution performs exactly 3 lookup attempts when every
lookup misses, sleeping 1000·2^(attempt−1) ms between attempts (1000 ms
then 2000 ms) before returning not-found; a first-attempt hit returns
immediately with no sleeps; and the only throw is the not-initialized
precondition. -/
theorem C7_resolver_retry_schedule (query : Nat → Option String) :
    ((∀ a, query a = none) →
      resolvePubkeyWithRetry true query 3 =
        Except.ok (none, 3, [1000, 2000])) ∧
    (∀ pk, query 1 = some pk →
      resolvePubkeyWithRetry true query 3 = Except.ok (some pk, 1, [])) ∧
    resolvePubkeyWithRetry false query 3 =
      Except.error "NostrService not initialized" := by
  refine ⟨?_, ?_, rfl⟩
  · intro h
    simp [resolvePubkeyWithRetry, resolveLoop, h, retryDelayMs]
  · intro pk h
    simp [resolvePubkeyWithRetry, resolveLoop, h]

/-- C7 witness: with a relay that never finds the nametag, resolution does
3 attempts with 1 s and 2 s backoff sleeps and returns not-found. -/
theorem C7_resolver_retry_schedule_witness :
    resolvePubkeyWithRetry true (fun _ => none) 3 =
      Except.ok (none, 3, [1000, 2000]) :=
  (C7_resolver_retry_schedule (fun _ => none)).1 (fun _ => rfl)

/-- C8: when the confirmed-results map already holds an entry for the cart,
`waitForPayment` returns that stored payment with the service state
untouched — no expectation is registered and no timeout is armed — so a
second call returns the identical confirmed result. -/
theorem C8_confirm_idempotent (s : NostrState) (dflt : Nat)
    (cartId eventId unicityId customerPubkey : String) (amountTokens : Int)
    (timeoutMs : Option Nat) (now now2 : Nat) (c : ConfirmedPayment)
    (hConfig : s.hasConfig = true)
    (hc : mapGet s.confirmedPayments cartId = some c) :
    waitForPayment s dflt cartId eventId unicityId customerPubkey
        amountTokens timeoutMs now =
      Except.ok (WaitStart.alreadyConfirmed c, s) ∧
    waitForPayment s dflt cartId eventId unicityId customerPubkey
        amountTokens timeoutMs now2 =
      Except.ok (WaitStart.alreadyConfirmed c, s) := by
  constructor <;> simp [waitForPayment, hConfig, hc]

/-- A confirmed payment already recorded for cart-3. -/
def confirmedSample : ConfirmedPayment :=
  { cartId := "cart-3", requestEventId := "evt-3",
    transferEventId := "tr-3", confirmedAt := 20 }

/-- A service state whose confirmed-results map holds `confirmedSample`. -/
def confirmedState : NostrState :=
  { clientActive := true, hasConfig := true, hasIdentity := true,
    isInitialized := true, transferSubscriptionId := some "sub-1",
    pendingPayments := [],
    confirmedPayments := [("cart-3", confirmedSample)] }

/-- C8 witness: a wait against a state holding a confirmed payment for the
cart returns the stored record and leaves the state alone. -/
theorem C8_confirm_idempotent_witness :
    waitForPayment confirmedState 60000 "cart-3" "evt-3" "dave" "pk-dave"
        500 (some 1000) 30 =
      Except.ok (WaitStart.alreadyConfirmed confirmedSample, confirmedState) :=
  (C8_confirm_idempotent confirmedState 60000 "cart-3" "evt-3" "dave"
    "pk-dave" 500 (some 1000) 30 40 confirmedSample rfl rfl).1

/-- C9: the caller-supplied wait window is clamped to [0, 120] seconds:
the effective wait is min(max(waitSeconds, 0), 120), so values inside the
interval pass through, 500 becomes 120, negatives become 0, and a missing
value defaults to 0. -/
theorem C9_wait_clamped (w : Int) :
    effectiveWaitSeconds (some w) = min (max w 0) 120 ∧
    (0 ≤ w → w ≤ 120 → effectiveWaitSeconds (some w) = w) ∧
    (120 < w → effectiveWaitSeconds (some w) = 120) ∧
    (w < 0 → effectiveWaitSeconds (some w) = 0) ∧
    effectiveWaitSeconds (some 500) = 120 ∧
    effectiveWaitSeconds none = 0 := by
  refine ⟨rfl, ?_, ?_, ?_, by decide, rfl⟩ <;>
    · intros
      simp only [effectiveWaitSeconds, Option.getD]
      omega

/-- C9 witness: 500 clamps to 120. -/
theorem C9_wait_clamped_witness :
    effectiveWaitSeconds (some 500) = 120 :=
  (C9_wait_clamped 500).2.2.1 (by decide)

/-- C10: shutting down an initialized service rejects every pending
expectation with the shutdown failure, clears the pending index,
unsubscribes the token-transfer subscription, and disconnects; a second
shutdown changes nothing and performs no effect. -/
theorem C10_shutdown_rejects_all (s : NostrState) (sid : String)
    (_hInit : s.isInitialized = true)
    (hClient : s.clientActive = true)
    (hSub : s.transferSubscriptionId = some sid) :
    shutdown s =
      ({ s with
          clientActive := false, transferSubscriptionId := none,
          pendingPayments := [], hasIdentity := false, hasConfig := false,
          isInitialized := false },
       { unsubscribedId := some sid,
         rejections := s.pendingPayments.map
           (fun kp =>
             (kp.2.eventId, Outcome.failure "NostrService shutting down")),
         disconnected := true }) ∧
    (shutdown (shutdown s).1).1 = (shutdown s).1 ∧
    (shutdown (shutdown s).1).2 =
      { unsubscribedId := none, rejections := [], disconnected := false } := by
  refine ⟨by simp [shutdown, hClient, hSub], ?_, ?_⟩ <;>
    simp [shutdown, hClient]

/-- C10 witness: shutting down with two pending expectations rejects both
with the shutdown failure; the second shutdown is a no-op. -/
theorem C10_shutdown_rejects_all_witness :
    shutdown
        { clientActive := true, hasConfig := true, hasIdentity := true,
          isInitialized := true, transferSubscriptionId := some "sub-7",
          pendingPayments :=
            [("evt-a",
              { cartId := "cart-a", eventId := "evt-a", unicityId := "u1",
                customerPubkey := "pk1", amountTokens := 1, createdAt := 0 }),
             ("evt-b",
              { cartId := "cart-b", eventId := "evt-b", unicityId := "u2",
                customerPubkey := "pk2", amountTokens := 2, createdAt := 0 })],
          confirmedPayments := [] } =
      ({ clientActive := false, hasConfig := false, hasIdentity := false,
          isInitialized := false, transferSubscriptionId := none,
          pendingPayments := [], confirmedPayments := [] },
       { unsubscribedId := some "sub-7",
         rejections :=
           [("evt-a", Outcome.failure "NostrService shutting down"),
            ("evt-b", Outcome.failure "NostrService shutting down")],
         disconnected := true }) :=
  (C10_shutdown_rejects_all _ "sub-7" rfl rfl rfl).1

/-- A concrete order already in the terminal `paid` state. -/
def paidSampleOrder : Order :=
  { id := "ord-1", cartId := "cart-1", status := OrderStatus.paid,
    totalAmountCents := 4999, currency := "AED",
    paymentEventId := some "evt-1", unicityId := some "alice",
    createdAt := 1, updatedAt := 2, paidAt := some 2 }

/-- C6 counterexample: `updateOrderStatus` and its lifecycle wrappers carry
no monotonicity guard, so the ordinary (non-administrative) operation
`markCancelled` moves an order already in the terminal `paid` state to
`cancelled`, and `markAwaitingPayment` moves it back to
`awaiting_payment` — terminal states do admit further transitions. -/
theorem C6_counterexample :
    ((markCancelled [("cart-1", paidSampleOrder)] "cart-1" 5).2.map
        Order.status) = some OrderStatus.cancelled ∧
    ((markAwaitingPayment [("cart-1", paidSampleOrder)] "cart-1" "evt-2"
        "bob" 6).2.map Order.status) =
      some OrderStatus.awaiting_payment := by
  constructor <;> decide

/-- C6 (amended): status setting is unconditional — `updateOrderStatus`
applies any requested status to an existing order regardless of its current
(even terminal) status, refreshing `updatedAt` on every transition and
stamping `paidAt` exactly when the new status is `paid`;
`markAwaitingPayment` likewise unconditionally sets `awaiting_payment`
with the request's event id and alias and refreshes `updatedAt`. -/
theorem C6_amended_unconditional_transitions (orders : AList Order)
    (cartId eventId unicityId : String) (status : OrderStatus) (now : Nat)
    (o : Order) (h : mapGet orders cartId = some o) :
    updateOrderStatus orders cartId status now =
      (mapSet orders cartId
        { o with
            status := status, updatedAt := now,
            paidAt := if status = OrderStatus.paid then some now
              else o.paidAt },
       some { o with
          status := status, updatedAt := now,
          paidAt := if status = OrderStatus.paid then some now
            else o.paidAt }) ∧
    markAwaitingPayment orders cartId eventId unicityId now =
      (mapSet orders cartId
        { o with
            status := OrderStatus.awaiting_payment,
            paymentEventId := some eventId, unicityId := some unicityId,
            updatedAt := now },
       some { o with
          status := OrderStatus.awaiting_payment,
          paymentEventId := some eventId, unicityId := some unicityId,
          updatedAt := now }) := by
  constructor <;> simp [updateOrderStatus, markAwaitingPayment, h]

/-- C6 amended witness: cancelling the paid sample order goes through and
refreshes `updatedAt` while keeping `paidAt`. -/
theorem C6_amended_unconditional_transitions_witness :
    updateOrderStatus [("cart-1", paidSampleOrder)] "cart-1"
        OrderStatus.cancelled 5 =
      (mapSet [("cart-1", paidSampleOrder)] "cart-1"
        { paidSampleOrder with
            status := OrderStatus.cancelled, updatedAt := 5,
            paidAt := if OrderStatus.cancelled = OrderStatus.paid then some 5
              else paidSampleOrder.paidAt },
       some { paidSampleOrder with
          status := OrderStatus.cancelled, updatedAt := 5,
          paidAt := if OrderStatus.cancelled = OrderStatus.paid then some 5
            else paidSampleOrder.paidAt }) :=
  (C6_amended_unconditional_transitions [("cart-1", paidSampleOrder)]
    "cart-1" "evt-2" "bob" OrderStatus.cancelled 5 paidSampleOrder rfl).1

theorem checkoutIssue_locks (env : CheckoutEnv) (s : CheckoutState)
    (cartId unicityId : String) (cart : Cart) :
    (checkoutIssue env s cartId unicityId cart).2.checkoutLocks =
      s.checkoutLocks := by
  cases henv : env.nostrConnected <;> cases hr : env.sendPaymentRequest <;>
    simp [checkoutIssue, henv, hr]

theorem checkoutBody_locks (env : CheckoutEnv) (s : CheckoutState)
    (cartId unicityId : String) :
    (checkoutBody env s cartId unicityId).2.checkoutLocks =
      s.checkoutLocks := by
  cases hc : mapGet s.carts cartId with
  | none => simp [checkoutBody, hc]
  | some cart =>
      cases hemp : cart.lines.isEmpty with
      | true => simp [checkoutBody, hc, hemp]
      | false =>
          cases hinv :
              (cart.lines.filterMap (lineInventoryError env)).isEmpty with
          | false => simp [checkoutBody, hc, hemp, hinv]
          | true =>
              cases ho : mapGet s.orders cartId with
              | none =>
                  simp only [checkoutBody, hc, hemp, hinv, ho,
                    Bool.not_false, Bool.not_true, if_false, if_true]
                  exact checkoutIssue_locks env s cartId unicityId cart
              | some o =>
                  by_cases hp : o.status = OrderStatus.paid
                  · simp [checkoutBody, hc, hemp, hinv, ho, hp]
                  · by_cases ha : o.status = OrderStatus.awaiting_payment
                    · simp [checkoutBody, hc, hemp, hinv, ho, hp, ha]
                    · simp only [checkoutBody, hc, hemp, hinv, ho,
                        Bool.not_false, Bool.not_true, if_false, if_true,
                        hp, ha]
                      exact checkoutIssue_locks env s cartId unicityId cart

/-- C4: a checkout for a cart id already in the checkout-lock set returns
the in-progress error with the state untouched; otherwise the lock is held
for the call and released on every exit path, so the lock set after the
call equals the lock set before it, and a second checkout racing against
one that holds the lock fails fast with the in-progress error. -/
theorem C4_checkout_lock_discipline (env env2 : CheckoutEnv)
    (s : CheckoutState) (cartId unicityId unicityId2 : String) :
    (cartId ∈ s.checkoutLocks →
      checkout env s cartId unicityId =
        (CheckoutResult.inProgressError, s)) ∧
    (cartId ∉ s.checkoutLocks →
      (checkout env s cartId unicityId).2.checkoutLocks =
        s.checkoutLocks) ∧
    (checkout env2 { s with checkoutLocks := cartId :: s.checkoutLocks }
        cartId unicityId2).1 = CheckoutResult.inProgressError := by
  refine ⟨?_, ?_, ?_⟩
  · intro h
    simp [checkout, h]
  · intro h
    simp [checkout, h, checkoutBody_locks, List.erase_cons_head]
  · simp [checkout]

/-- An environment for the checkout witnesses in which the payment request
cannot be issued. -/
def failEnv : CheckoutEnv :=
  { getVariantById := fun _ =>
      some { availableForSale := true, quantityAvailable := some 5 },
    sendPaymentRequest :=
      Except.error "Could not resolve Unicity ID @alice to a public key",
    nostrConnected := true, newOrderId := "ord-7", now := 7 }

/-- C4 witness: a checkout while the cart id is already locked returns the
in-progress error and leaves the state untouched. -/
theorem C4_checkout_lock_discipline_witness :
    checkout failEnv
        { checkoutLocks := ["cart-5"], carts := [], orders := [] }
        "cart-5" "alice" =
      (CheckoutResult.inProgressError,
       { checkoutLocks := ["cart-5"], carts := [], orders := [] }) :=
  (C4_checkout_lock_discipline failEnv failEnv
    { checkoutLocks := ["cart-5"], carts := [], orders := [] }
    "cart-5" "alice" "alice").1 (by decide)

/-- C5: with all checkout validation passing and no order yet tracked for
the cart, a failing `sendPaymentRequest` leaves the whole state exactly as
it was — no order is created and the cart is not locked — while a
successful one creates the order, marks it awaiting payment with the
request's event id and alias, and locks the cart. -/
theorem C5_request_before_order (env : CheckoutEnv) (s : CheckoutState)
    (cartId unicityId : String) (cart : Cart)
    (hlock : cartId ∉ s.checkoutLocks)
    (hcart : mapGet s.carts cartId = some cart)
    (hnonempty : cart.lines.isEmpty = false)
    (hinv : cart.lines.filterMap (lineInventoryError env) = [])
    (hord : mapGet s.orders cartId = none)
    (hconn : env.nostrConnected = true) :
    (∀ msg, env.sendPaymentRequest = Except.error msg →
      checkout env s cartId unicityId =
        (CheckoutResult.sendFailed msg, s)) ∧
    (∀ req, env.sendPaymentRequest = Except.ok req →
      checkout env s cartId unicityId =
        (CheckoutResult.success req,
         { checkoutLocks := s.checkoutLocks,
           carts := mapSet s.carts cartId
             { cart with lockedForCheckout := true, updatedAt := env.now },
           orders := mapSet s.orders cartId
             { id := env.newOrderId, cartId := cartId,
               status := OrderStatus.awaiting_payment,
               totalAmountCents := cart.subtotalCents,
               currency := cart.currency,
               paymentEventId := some req.eventId,
               unicityId := some unicityId,
               createdAt := env.now, updatedAt := env.now,
               paidAt := none } })) := by
  constructor
  · intro msg hmsg
    simp [checkout, hlock, checkoutBody, hcart, hnonempty, hinv, hord,
      checkoutIssue, hconn, hmsg, List.erase_cons_head]
  · intro req hreq
    simp [checkout, hlock, checkoutBody, hcart, hnonempty, hinv, hord,
      checkoutIssue, hconn, hreq, trackOrder, markAwaitingPayment,
      mapGet_mapSet_self, mapSet_mapSet, lockCartForCheckout,
      List.erase_cons_head]

/-- A one-line cart used by the C5 witness. -/
def sampleCart : Cart :=
  { lines := [{ variantId := "v1",
                productTitle := "Pikachu",
                variantTitle := "NM",
                quantity := 1 }],
    subtotalCents := 4999, currency := "AED",
    lockedForCheckout := false, updatedAt := 0 }

/-- The checkout state used by the C5 witness. -/
def sampleCheckoutState : CheckoutState :=
  { checkoutLocks := [], carts := [("cart-7", sampleCart)], orders := [] }

/-- C5 witness: when issuing the payment request fails, checkout returns
the failure and the state — lock set, carts, orders — is exactly what it
was before the call. -/
theorem C5_request_before_order_witness :
    checkout failEnv sampleCheckoutState "cart-7" "alice" =
      (CheckoutResult.sendFailed
        "Could not resolve Unicity ID @alice to a public key",
       sampleCheckoutState) :=
  (C5_request_before_order failEnv sampleCheckoutState "cart-7" "alice"
    sampleCart (by decide) rfl rfl rfl rfl rfl).1
    "Could not resolve Unicity ID @alice to a public key" rfl

end RunicVault
